import Mathlib

/-!
# Verification of the terminal-brief welcome-message system

Shallow embedding of the core of the `terminal-brief` repository:

* `src/utils/cache.ts` — the file-backed, time-to-live cache
  (`getCache`, `saveCache`, `apiRequest`);
* `src/modules/base.ts` — the module registry and orchestrator
  (`ModuleRegistry`, `getEnabledModules`, `setupModules`, `displayWelcome`);
* `src/config/index.ts` and `src/types/config.ts` — configuration
  loading (`loadConfig`, `defaultConfig`);
* `src/index.ts` — the process entry point (`init` and the module-level
  calls that run it).

Conventions of the embedding:

* JSON documents are modelled by the inductive type `JValue`; JSON numbers
  are modelled as integers (every numeral appearing in the configuration
  and cache values relevant here is integral).
* JavaScript runtime objects are modelled as association lists from key to
  `JValue`; a key whose value is `undefined` is modelled as an absent key.
* Timestamps (`Date.now()`, `stats.mtimeMs`) are integers in milliseconds.
* Asynchronous functions are modelled as pure state-passing functions; a
  rejected promise is an `Except.error`.
-/

/-- A JSON value, as produced by `JSON.parse` / consumed by
`JSON.stringify`.  Numbers are modelled as integers. -/
inductive JValue where
  | null : JValue
  | bool (b : Bool) : JValue
  | num (n : Int) : JValue
  | str (s : String) : JValue
  | arr (elems : List JValue) : JValue
  | obj (fields : List (String × JValue)) : JValue

/-- JavaScript truthiness of a JSON value: `null`, `false`, `0` and the
empty string are falsy; every other JSON value (including any object or
array) is truthy.  This is the semantics of `if (x)` in the source. -/
def JValue.truthy : JValue → Bool
  | JValue.null => false
  | JValue.bool b => b
  | JValue.num n => n != 0
  | JValue.str s => s != ""
  | JValue.arr _ => true
  | JValue.obj _ => true

/-- Lookup in an association list (the model of `Map.get` and of property
access on a plain object). -/
def lookupAssoc {α : Type} : List (String × α) → String → Option α
  | [], _ => none
  | (k, v) :: rest, key => if k == key then some v else lookupAssoc rest key

/-- Insert-or-overwrite in an association list (the model of `Map.set` and
of overwriting a file named by the key): an existing binding is replaced in
place, a new binding is appended. -/
def setAssoc {α : Type} : List (String × α) → String → α → List (String × α)
  | [], key, v => [(key, v)]
  | (k, w) :: rest, key, v =>
      if k == key then (key, v) :: rest else (k, w) :: setAssoc rest key v

/-- The content of one cache file: either a JSON document that parses back
to a value, or content that cannot be read or parsed (`JSON.parse` throws,
or `fs.readFile` fails). -/
inductive CacheFile where
  | valid (v : JValue) : CacheFile
  | malformed : CacheFile

/-- One entry of the cache directory: file content plus the file's
modification time in milliseconds (`stats.mtimeMs`). -/
structure CacheEntry where
  content : CacheFile
  mtimeMs : Int

/-- The cache directory, one file per cache key
(`~/.config/welcome/cache/<name>.json`). -/
def CacheStore : Type := List (String × CacheEntry)

/-- Embedding of `getCache` (src/utils/cache.ts).  `stat` fails when the
file is absent (caught, yielding `null`); otherwise the file age
`Date.now() - stats.mtimeMs` is compared against `maxAge * 1000`; a fresh
file is read and parsed, a parse or read failure is caught and yields
`null`.  As in the source, `null` is the absent / expired / unreadable
result. -/
def getCache (store : CacheStore) (now : Int) (cacheName : String) (maxAge : Int) : JValue :=
  match lookupAssoc store cacheName with
  | none => JValue.null
  | some entry =>
      if now - entry.mtimeMs < maxAge * 1000 then
        match entry.content with
        | CacheFile.valid v => v
        | CacheFile.malformed => JValue.null
      else JValue.null

/-- Embedding of `saveCache` (src/utils/cache.ts): serialize `data` and
write it to the file named by `cacheName`, overwriting any previous entry;
the file's modification time becomes the current time. -/
def saveCache (store : CacheStore) (now : Int) (cacheName : String) (data : JValue) : CacheStore :=
  setAssoc store cacheName ⟨CacheFile.valid data, now⟩

/-- Result of one `apiRequest` call: the value returned (or the error the
producer rejected with), the cache state after the call, and how many
times the producer `requestFn` was invoked during the call. -/
structure ApiResult where
  result : Except String JValue
  store : CacheStore
  producerCalls : Nat

/-- Embedding of `apiRequest` (src/utils/cache.ts).  The cached value is
fetched first; the source guards with `if (cachedData)`, a JavaScript
truthiness test, so both the absent result `null` and any falsy cached
value fall through to the producer.  On a miss the producer is invoked;
a successful response is saved to the cache and returned; a failure is
logged and re-thrown, and nothing is saved. -/
def apiRequest (store : CacheStore) (now : Int) (cacheName : String) (cacheAge : Int)
    (requestFn : Except String JValue) : ApiResult :=
  let cachedData := getCache store now cacheName cacheAge
  if cachedData.truthy then
    ⟨Except.ok cachedData, store, 0⟩
  else
    match requestFn with
    | Except.ok response => ⟨Except.ok response, saveCache store now cacheName response, 1⟩
    | Except.error e => ⟨Except.error e, store, 1⟩

/-- Two `apiRequest` calls in succession with the same key, max-age and
producer: the first at time `t0`, the second at time `t1` against the
cache state the first call left behind. -/
structure TwoCallResult where
  first : ApiResult
  second : ApiResult

/-- Run `apiRequest` twice in succession with the same key and producer. -/
def apiRequestTwice (store : CacheStore) (t0 t1 : Int) (cacheName : String) (cacheAge : Int)
    (requestFn : Except String JValue) : TwoCallResult :=
  let r1 := apiRequest store t0 cacheName cacheAge requestFn
  let r2 := apiRequest r1.store t1 cacheName cacheAge requestFn
  ⟨r1, r2⟩

/-- Total number of producer invocations across the two calls. -/
def TwoCallResult.totalProducerCalls (r : TwoCallResult) : Nat :=
  r.first.producerCalls + r.second.producerCalls

-- Basic lemmas about the association-list primitives.

theorem lookupAssoc_setAssoc_self {α : Type} (l : List (String × α)) (key : String) (v : α) :
    lookupAssoc (setAssoc l key v) key = some v := by
  induction l with
  | nil => simp [setAssoc, lookupAssoc]
  | cons head rest ih =>
      obtain ⟨k, w⟩ := head
      by_cases h : k == key
      · simp [setAssoc, h, lookupAssoc]
      · simp [setAssoc, h, lookupAssoc, ih]

theorem apiRequest_producerCalls_le_one (store : CacheStore) (now : Int) (cacheName : String)
    (cacheAge : Int) (requestFn : Except String JValue) :
    (apiRequest store now cacheName cacheAge requestFn).producerCalls ≤ 1 := by
  unfold apiRequest
  by_cases h : (getCache store now cacheName cacheAge).truthy
  · simp [h]
  · cases requestFn with
    | ok response => simp [h]
    | error e => simp [h]

/-- A value saved at time `t0` is returned by a `getCache` at any time `t1`
with `t1 - t0 < maxAge * 1000`. -/
theorem getCache_saveCache_fresh (store : CacheStore) (t0 t1 : Int) (cacheName : String)
    (v : JValue) (maxAge : Int) (h : t1 - t0 < maxAge * 1000) :
    getCache (saveCache store t0 cacheName v) t1 cacheName maxAge = v := by
  unfold getCache saveCache
  rw [lookupAssoc_setAssoc_self]
  simp [h]

-- ## Claim C3: put/get round-trip

/-- C3: For every cache key `k` and every JSON-serializable stored value
`v`, `saveCache k v` immediately followed by `getCache k maxAge` with
`maxAge > 0` returns `v` unchanged. -/
theorem saveCache_getCache_roundtrip (store : CacheStore) (now : Int) (cacheName : String)
    (v : JValue) (maxAge : Int) (h : 0 < maxAge) :
    getCache (saveCache store now cacheName v) now cacheName maxAge = v := by
  apply getCache_saveCache_fresh
  have h1000 : (0 : Int) < 1000 := by norm_num
  have := mul_pos h h1000
  omega

/-- Witness for C3 at a concrete input: a stored number is read back
unchanged with a positive max-age. -/
theorem saveCache_getCache_roundtrip_witness :
    getCache (saveCache [] 17 "weather_data" (JValue.num 42)) 17 "weather_data" 300 =
      JValue.num 42 :=
  saveCache_getCache_roundtrip [] 17 "weather_data" (JValue.num 42) 300 (by norm_num)

-- ## Claim C4: getCache characterization

/-- C4: `getCache k maxAge` returns the stored value exactly when an entry
is present and `now - storedAt < maxAge * 1000`; it reports absent
(`null`) otherwise.  In particular an entry whose age equals
`maxAge * 1000` exactly is reported absent, and a malformed or unreadable
entry, or a missing one, yields absent rather than an error. -/
theorem getCache_characterization :
    (∀ (store : CacheStore) (now : Int) (cacheName : String) (maxAge : Int)
        (v : JValue) (m : Int),
        lookupAssoc store cacheName = some ⟨CacheFile.valid v, m⟩ →
        now - m < maxAge * 1000 →
        getCache store now cacheName maxAge = v)
    ∧ (∀ (store : CacheStore) (now : Int) (cacheName : String) (maxAge : Int) (v : JValue),
        v ≠ JValue.null →
        getCache store now cacheName maxAge = v →
        ∃ m : Int, lookupAssoc store cacheName = some ⟨CacheFile.valid v, m⟩ ∧
          now - m < maxAge * 1000)
    ∧ (∀ (store : CacheStore) (now : Int) (cacheName : String) (maxAge : Int)
        (entry : CacheEntry),
        lookupAssoc store cacheName = some entry →
        now - entry.mtimeMs = maxAge * 1000 →
        getCache store now cacheName maxAge = JValue.null)
    ∧ (∀ (store : CacheStore) (now : Int) (cacheName : String) (maxAge : Int) (m : Int),
        lookupAssoc store cacheName = some ⟨CacheFile.malformed, m⟩ →
        getCache store now cacheName maxAge = JValue.null)
    ∧ (∀ (store : CacheStore) (now : Int) (cacheName : String) (maxAge : Int),
        lookupAssoc store cacheName = none →
        getCache store now cacheName maxAge = JValue.null) := by
  refine ⟨?_, ?_, ?_, ?_, ?_⟩
  · intro store now cacheName maxAge v m hlook hfresh
    simp [getCache, hlook, hfresh]
  · intro store now cacheName maxAge v hv hget
    cases hlook : lookupAssoc store cacheName with
    | none =>
        simp [getCache, hlook] at hget
        exact absurd hget.symm hv
    | some entry =>
        obtain ⟨c, m⟩ := entry
        by_cases hfresh : now - m < maxAge * 1000
        · cases c with
          | valid w =>
              simp [getCache, hlook, hfresh] at hget
              subst hget
              exact ⟨m, rfl, hfresh⟩
          | malformed =>
              simp [getCache, hlook, hfresh] at hget
              exact absurd hget.symm hv
        · simp [getCache, hlook, hfresh] at hget
          exact absurd hget.symm hv
  · intro store now cacheName maxAge entry hlook hage
    have : ¬ (now - entry.mtimeMs < maxAge * 1000) := by omega
    simp [getCache, hlook, this]
  · intro store now cacheName maxAge m hlook
    by_cases hfresh : now - m < maxAge * 1000 <;> simp [getCache, hlook, hfresh]
  · intro store now cacheName maxAge hlook
    simp [getCache, hlook]

/-- Witness for C4 at a concrete input: the boundary case.  An entry whose
age is exactly `maxAge * 1000` milliseconds is reported absent. -/
theorem getCache_characterization_witness :
    getCache [("k", ⟨CacheFile.valid (JValue.num 7), 0⟩)] 1000 "k" 1 = JValue.null :=
  getCache_characterization.2.2.1 [("k", ⟨CacheFile.valid (JValue.num 7), 0⟩)] 1000 "k" 1
    ⟨CacheFile.valid (JValue.num 7), 0⟩ rfl (by norm_num)

-- ## Claim C5: producer failure propagates and caches nothing

/-- C5: when the cache has no live entry for the key and the producer
fails, `apiRequest` propagates the producer's error to its caller, the
producer is invoked exactly once, and the stored cache state is unchanged. -/
theorem apiRequest_error_propagates (store : CacheStore) (now : Int) (cacheName : String)
    (cacheAge : Int) (msg : String)
    (h : getCache store now cacheName cacheAge = JValue.null) :
    apiRequest store now cacheName cacheAge (Except.error msg) =
      ⟨Except.error msg, store, 1⟩ := by
  simp [apiRequest, h, JValue.truthy]

/-- Witness for C5 at a concrete input: an empty cache and a failing
producer. -/
theorem apiRequest_error_propagates_witness :
    apiRequest [] 0 "github_review_jens" 300 (Except.error "GitHub API error: 500") =
      ⟨Except.error "GitHub API error: 500", [], 1⟩ :=
  apiRequest_error_propagates [] 0 "github_review_jens" 300 "GitHub API error: 500" rfl

-- ## Claim C1: two successive calls invoke the producer at most once

/-- Counterexample to C1 as stated: with an empty cache, key `k`,
max-age 300 seconds and a producer that succeeds with the JSON value
`false`, two immediate calls to `apiRequest` invoke the producer twice —
the value is cached by the first call, but the truthiness guard
`if (cachedData)` treats the cached `false` as a miss. -/
theorem apiRequest_twice_falsy_counterexample :
    ¬ ((apiRequestTwice [] 0 0 "k" 300 (Except.ok (JValue.bool false))).totalProducerCalls ≤ 1) := by
  decide

/-- C1 (amended): two `apiRequest` calls in immediate succession with the
same key and sufficient max-age invoke the producer at most once in total,
provided the producer succeeds with a truthy value (not `null`, `false`,
`0` or the empty string); the second call then returns the value cached by
the first. -/
theorem apiRequest_twice_at_most_one_call (store : CacheStore) (t0 t1 : Int)
    (cacheName : String) (cacheAge : Int) (v : JValue)
    (hv : v.truthy = true) (hfresh : t1 - t0 < cacheAge * 1000) :
    (apiRequestTwice store t0 t1 cacheName cacheAge (Except.ok v)).totalProducerCalls ≤ 1 := by
  by_cases h0 : (getCache store t0 cacheName cacheAge).truthy
  · have hfirst : apiRequest store t0 cacheName cacheAge (Except.ok v) =
        ⟨Except.ok (getCache store t0 cacheName cacheAge), store, 0⟩ := by
      simp [apiRequest, h0]
    have hle := apiRequest_producerCalls_le_one store t1 cacheName cacheAge (Except.ok v)
    simp only [apiRequestTwice, TwoCallResult.totalProducerCalls, hfirst]
    simpa using hle
  · have hfirst : apiRequest store t0 cacheName cacheAge (Except.ok v) =
        ⟨Except.ok v, saveCache store t0 cacheName v, 1⟩ := by
      simp [apiRequest, h0]
    have hget := getCache_saveCache_fresh store t0 t1 cacheName v cacheAge hfresh
    have hsecond : apiRequest (saveCache store t0 cacheName v) t1 cacheName cacheAge
        (Except.ok v) = ⟨Except.ok v, saveCache store t0 cacheName v, 0⟩ := by
      simp [apiRequest, hget, hv]
    simp [apiRequestTwice, TwoCallResult.totalProducerCalls, hfirst, hsecond]

/-- Witness for C1 (amended) at a concrete input: a truthy produced value
and an immediate second call. -/
theorem apiRequest_twice_at_most_one_call_witness :
    (apiRequestTwice [] 0 1000 "github_created_jens" 300
      (Except.ok (JValue.num 42))).totalProducerCalls ≤ 1 :=
  apiRequest_twice_at_most_one_call [] 0 1000 "github_created_jens" 300 (JValue.num 42)
    (by decide) (by norm_num)

-- ## Module registry and orchestrator (src/modules/base.ts)

/-- The configuration as consumed by the orchestrator in
src/modules/base.ts: only the ordered list `enabledModules` of module
names is read there (the full `WelcomeConfig` record is modelled at the
JSON level for the configuration-loading claims). -/
structure WelcomeConfig where
  enabledModules : List String

/-- A welcome module (the `WelcomeModule` interface): a name plus the
`setup` and `display` lifecycle operations.  A rejected promise is an
`Except.error`; `display` resolves to the module's output fragment. -/
structure WelcomeModule where
  name : String
  setup : WelcomeConfig → Except String Unit
  display : WelcomeConfig → Except String String

/-- The module registry: a mapping from module name to module
(`Map<string, WelcomeModule>`). -/
structure ModuleRegistry where
  modules : List (String × WelcomeModule)

/-- Embedding of `ModuleRegistry.register`: `this.modules.set(module.name,
module)` — insert or overwrite under the module's name. -/
def ModuleRegistry.register (r : ModuleRegistry) (m : WelcomeModule) : ModuleRegistry :=
  ⟨setAssoc r.modules m.name m⟩

/-- Embedding of `ModuleRegistry.getModule`: `this.modules.get(name)`. -/
def ModuleRegistry.getModule (r : ModuleRegistry) (name : String) : Option WelcomeModule :=
  lookupAssoc r.modules name

/-- Embedding of `ModuleRegistry.getAllModules`:
`Array.from(this.modules.values())`. -/
def ModuleRegistry.getAllModules (r : ModuleRegistry) : List WelcomeModule :=
  r.modules.map Prod.snd

/-- Embedding of `ModuleRegistry.getEnabledModules`: map each configured
name through the registry, then filter out the names with no registered
module (`.map(name => this.modules.get(name)).filter(module !==
undefined)`). -/
def ModuleRegistry.getEnabledModules (r : ModuleRegistry) (config : WelcomeConfig) :
    List WelcomeModule :=
  (config.enabledModules.map (fun name => r.getModule name)).reduceOption

/-- Embedding of `setupModules` (src/modules/base.ts): iterate over the
enabled modules in order and invoke each module's `setup`, catching any
failure inside the loop body (`try { await module.setup(config) } catch
{ log }`), so every enabled module's setup is attempted and the function
always returns.  The source returns `void`; the embedding returns the
trace of setup invocations with their outcomes. -/
def setupModules (r : ModuleRegistry) (config : WelcomeConfig) :
    List (String × Except String Unit) :=
  (r.getEnabledModules config).map (fun m => (m.name, m.setup config))

/-- The display pass of `displayWelcome`: each enabled module's `display`
invocation and its outcome, in order. -/
def displayTrace (r : ModuleRegistry) (config : WelcomeConfig) :
    List (String × Except String String) :=
  (r.getEnabledModules config).map (fun m => (m.name, m.display config))

/-- The loop body of `displayWelcome`: for each module, in order, invoke
`display` inside a `try`/`catch`; a failure is caught and logged and the
module contributes nothing; a success is pushed onto `output` only when
truthy (`if (moduleOutput)` — the non-empty-string test). -/
def displayFragments (modules : List WelcomeModule) (config : WelcomeConfig) : List String :=
  modules.filterMap (fun m =>
    match m.display config with
    | Except.ok moduleOutput => if moduleOutput == "" then none else some moduleOutput
    | Except.error _ => none)

/-- Embedding of `displayWelcome` (src/modules/base.ts): the `output`
array starts with a blank line, collects the truthy module outputs in
order, ends with a blank line, and is joined with `'\n'`. -/
def displayWelcome (r : ModuleRegistry) (config : WelcomeConfig) : String :=
  let enabledModules := r.getEnabledModules config
  let output : List String := [""] ++ displayFragments enabledModules config ++ [""]
  String.intercalate "\n" output

/-- Selector applied to the display trace: a failed display contributes
nothing and an empty output is dropped, exactly the pushes `displayWelcome`
performs. -/
def fragPick : String × Except String String → Option String
  | (_, Except.ok s) => if s == "" then none else some s
  | (_, Except.error _) => none

-- Concrete modules used by the registry-level scenarios.

/-- Test module `A` of the C6 scenario. -/
def testModuleA : WelcomeModule :=
  ⟨"A", fun _ => Except.ok (), fun _ => Except.ok "outA"⟩

/-- Test module `B` of the C6 scenario. -/
def testModuleB : WelcomeModule :=
  ⟨"B", fun _ => Except.ok (), fun _ => Except.ok "outB"⟩

/-- A registry holding exactly the modules `A` and `B`. -/
def exampleRegistry : ModuleRegistry :=
  ((ModuleRegistry.mk []).register testModuleA).register testModuleB

/-- A module whose `setup` rejects and whose `display` throws. -/
def failingModule : WelcomeModule :=
  ⟨"failing", fun _ => Except.error "setup failure", fun _ => Except.error "display failure"⟩

/-- A module whose `setup` resolves and whose `display` returns "hello". -/
def okModule : WelcomeModule :=
  ⟨"ok", fun _ => Except.ok (), fun _ => Except.ok "hello"⟩

/-- A registry holding the failing module and the succeeding module. -/
def isolationRegistry : ModuleRegistry :=
  ((ModuleRegistry.mk []).register failingModule).register okModule

/-- The configuration enabling the failing module before the succeeding
one. -/
def isolationConfig : WelcomeConfig := ⟨["failing", "ok"]⟩

-- ## Claim C6: getEnabledModules projects the configured names

/-- C6: `getEnabledModules` returns exactly the registered modules whose
names appear in `config.enabledModules`, in the configured order, silently
omitting names with no registered module; in particular with registry
{A, B} and configured order [B, X, A] the result is [B, A]. -/
theorem getEnabledModules_projects_config :
    (∀ (r : ModuleRegistry) (config : WelcomeConfig),
        r.getEnabledModules config = config.enabledModules.filterMap r.getModule)
    ∧ ((exampleRegistry.getEnabledModules ⟨["B", "X", "A"]⟩).map WelcomeModule.name
        = ["B", "A"]) := by
  constructor
  · intro r config
    simp [ModuleRegistry.getEnabledModules, List.reduceOption, List.filterMap_map]
  · rfl

-- ## Claim C2: failure isolation

/-- C2: no single module's failure in `setup` or `display` prevents the
other enabled modules from running, nor prevents `setupModules` and
`displayWelcome` from returning: the setup pass and the display pass each
cover every enabled module in order regardless of the outcomes, a module
whose `display` throws (or returns an empty string) contributes no output
fragment, and a module whose `setup` rejected is still part of the display
pass.  Concretely, with a module whose setup and display both fail enabled
before a succeeding one, both setups are attempted and the composed output
is the succeeding module's fragment with the blank-line framing. -/
theorem module_failure_isolation :
    (∀ (r : ModuleRegistry) (config : WelcomeConfig),
        (setupModules r config).map Prod.fst
          = (r.getEnabledModules config).map WelcomeModule.name)
    ∧ (∀ (r : ModuleRegistry) (config : WelcomeConfig),
        (displayTrace r config).map Prod.fst
          = (r.getEnabledModules config).map WelcomeModule.name)
    ∧ (∀ (r : ModuleRegistry) (config : WelcomeConfig),
        displayWelcome r config
          = String.intercalate "\n"
              ([""] ++ (displayTrace r config).filterMap fragPick ++ [""]))
    ∧ ((setupModules isolationRegistry isolationConfig).map Prod.fst = ["failing", "ok"]
        ∧ displayWelcome isolationRegistry isolationConfig = "\nhello\n") := by
  refine ⟨?_, ?_, ?_, rfl, rfl⟩
  · intro r config
    simp [setupModules, List.map_map]
  · intro r config
    simp [displayTrace, List.map_map]
  · intro r config
    simp only [displayWelcome, displayFragments, displayTrace, List.filterMap_map]
    have hfun : (fun (m : WelcomeModule) =>
        match m.display config with
        | Except.ok moduleOutput => if moduleOutput == "" then none else some moduleOutput
        | Except.error _ => none)
        = (fragPick ∘ fun (m : WelcomeModule) => (m.name, m.display config)) := by
      funext m
      cases hd : m.display config <;> simp [fragPick, hd]
    rw [hfun]

-- ## Claim C7: displayWelcome composition

/-- Counterexample to C7 as stated: a single enabled module named `system`
whose `display` returns the empty string.  The empty fragment is dropped
by the truthiness test, so `displayWelcome` returns a single newline, not
the claimed `"\n" + s + "\n"` (which would be two newlines). -/
def emptySystemModule : WelcomeModule :=
  ⟨"system", fun _ => Except.ok (), fun _ => Except.ok ""⟩

/-- Registry holding only the empty-output system module. -/
def emptySystemRegistry : ModuleRegistry :=
  (ModuleRegistry.mk []).register emptySystemModule

/-- Counterexample to C7 at the concrete input `s = ""`: the composed
output is `"\n"`, while the claim demands `"\n" ++ "" ++ "\n"`, and the
two differ. -/
theorem displayWelcome_empty_fragment_counterexample :
    displayWelcome emptySystemRegistry ⟨["system"]⟩ = "\n"
    ∧ ("\n" : String) ≠ "\n" ++ "" ++ "\n" := by
  constructor
  · rfl
  · decide

/-- C7 (amended): `displayWelcome` collects the non-empty fragments
produced by the enabled modules' successful `display` calls, in order, and
joins them with single newlines between a leading and a trailing blank
line; in particular, with exactly one enabled module whose `display`
returns a **non-empty** string `s`, the result is `"\n" ++ s ++ "\n"`
(an empty `s` is dropped by the truthiness test and the result is a single
newline). -/
theorem displayWelcome_frames_nonempty_fragments :
    (∀ (modules : List WelcomeModule) (config : WelcomeConfig) (s : String),
        s ∈ displayFragments modules config →
        s ≠ "" ∧ ∃ m, m ∈ modules ∧ m.display config = Except.ok s)
    ∧ (∀ (r : ModuleRegistry) (config : WelcomeConfig) (m : WelcomeModule) (s : String),
        r.getEnabledModules config = [m] → m.display config = Except.ok s → s ≠ "" →
        displayWelcome r config = "\n" ++ s ++ "\n") := by
  constructor
  · intro modules config s hs
    rw [displayFragments, List.mem_filterMap] at hs
    obtain ⟨m, hm, heq⟩ := hs
    cases hdisp : m.display config with
    | ok out =>
        simp [hdisp] at heq
        by_cases hout : out = ""
        · simp [hout] at heq
        · simp [hout] at heq
          subst heq
          exact ⟨hout, m, hm, hdisp⟩
    | error e => simp [hdisp] at heq
  · intro r config m s henabled hdisp hs
    simp [displayWelcome, henabled, displayFragments, hdisp, hs,
      String.intercalate, String.intercalate.go]

/-- A system module with a fixed non-empty display string, for the C7
witness. -/
def fixedSystemModule : WelcomeModule :=
  ⟨"system", fun _ => Except.ok (), fun _ => Except.ok "System Information:"⟩

/-- Registry holding only the fixed-output system module. -/
def fixedSystemRegistry : ModuleRegistry :=
  (ModuleRegistry.mk []).register fixedSystemModule

/-- Witness for C7 (amended) at a concrete input: one enabled `system`
module returning a fixed non-empty string. -/
theorem displayWelcome_frames_nonempty_fragments_witness :
    displayWelcome fixedSystemRegistry ⟨["system"]⟩ = "\n" ++ "System Information:" ++ "\n" :=
  displayWelcome_frames_nonempty_fragments.2 fixedSystemRegistry ⟨["system"]⟩
    fixedSystemModule "System Information:" rfl rfl (by decide)

-- ## The registered built-in modules and the singleton registry

/-- The behaviour of one real module: its `setup` and `display` bodies
perform network and OS I/O, so the embedding abstracts them as parameters;
the registry-level claims depend only on the modules' names. -/
structure ModuleBehavior where
  setup : WelcomeConfig → Except String Unit
  display : WelcomeConfig → Except String String

/-- The GitHub module (src/modules/github.ts): `name = 'github'`. -/
def githubModule (b : ModuleBehavior) : WelcomeModule :=
  ⟨"github", b.setup, b.display⟩

/-- The weather module (src/modules/weather.ts): `name = 'weather'`. -/
def weatherModule (b : ModuleBehavior) : WelcomeModule :=
  ⟨"weather", b.setup, b.display⟩

/-- The stalled-issue module (src/modules/linearStalled.ts):
`name = 'linearStalled'`. -/
def linearStalledModule (b : ModuleBehavior) : WelcomeModule :=
  ⟨"linearStalled", b.setup, b.display⟩

/-- The system module (src/modules/system.ts): `name = 'system'`. -/
def systemModule (b : ModuleBehavior) : WelcomeModule :=
  ⟨"system", b.setup, b.display⟩

/-- The greeting module (src/modules/greeting.ts): `name = 'greeting'`.
It exists in the repository but is never passed to
`moduleRegistry.register`. -/
def greetingModule (b : ModuleBehavior) : WelcomeModule :=
  ⟨"greeting", b.setup, b.display⟩

/-- The singleton registry of src/modules/base.ts: exactly the four
`register` calls executed at module load, in source order (`github`,
`weather`, `linearStalled`, `system`); the greeting module is not among
them. -/
def moduleRegistry (bg bw bl bs : ModuleBehavior) : ModuleRegistry :=
  ((((ModuleRegistry.mk []).register (githubModule bg)).register
      (weatherModule bw)).register (linearStalledModule bl)).register (systemModule bs)

/-- The default `enabledModules` list of src/types/config.ts. -/
def defaultEnabledModules : List String :=
  ["system", "greeting", "weather", "github", "linearStalled"]

/-- The default configuration, as consumed by the orchestrator. -/
def defaultWelcomeConfig : WelcomeConfig := ⟨defaultEnabledModules⟩

/-- Looked-up values are values of the association list. -/
theorem lookupAssoc_mem {α : Type} (l : List (String × α)) (key : String) (v : α)
    (h : lookupAssoc l key = some v) : v ∈ l.map Prod.snd := by
  induction l with
  | nil => simp [lookupAssoc] at h
  | cons head rest ih =>
      obtain ⟨k, w⟩ := head
      by_cases hk : k == key
      · simp [lookupAssoc, hk] at h
        simp [h]
      · simp [lookupAssoc, hk] at h
        simp [ih h]

/-- Members of `getEnabledModules` are values of the registry map. -/
theorem mem_getEnabledModules (r : ModuleRegistry) (config : WelcomeConfig)
    (m : WelcomeModule) (hm : m ∈ r.getEnabledModules config) :
    m ∈ r.modules.map Prod.snd := by
  rw [ModuleRegistry.getEnabledModules, List.reduceOption_mem_iff, List.mem_map] at hm
  obtain ⟨name, _, hlook⟩ := hm
  exact lookupAssoc_mem r.modules name m hlook

-- ## Claim C10: the greeting module is never enabled

/-- C10: the singleton registry registers exactly the modules `github`,
`weather`, `linearStalled` and `system`; `greeting` appears in the default
`enabledModules` list, yet for every configuration no module produced by
`getEnabledModules` is named `greeting`, so the orchestrator never invokes
the greeting module's `setup` or `display`. -/
theorem greeting_module_never_enabled :
    (∀ bg bw bl bs : ModuleBehavior,
        (moduleRegistry bg bw bl bs).modules.map Prod.fst
          = ["github", "weather", "linearStalled", "system"])
    ∧ ("greeting" ∈ defaultEnabledModules)
    ∧ (∀ (bg bw bl bs : ModuleBehavior) (config : WelcomeConfig) (m : WelcomeModule),
        m ∈ (moduleRegistry bg bw bl bs).getEnabledModules config →
        m.name ≠ "greeting") := by
  refine ⟨fun bg bw bl bs => rfl, by decide, ?_⟩
  intro bg bw bl bs config m hm
  have hmem := mem_getEnabledModules (moduleRegistry bg bw bl bs) config m hm
  have hvals : (moduleRegistry bg bw bl bs).modules.map Prod.snd
      = [githubModule bg, weatherModule bw, linearStalledModule bl, systemModule bs] := rfl
  rw [hvals] at hmem
  simp only [List.mem_cons, List.not_mem_nil, or_false] at hmem
  rcases hmem with rfl | rfl | rfl | rfl <;>
    simp [githubModule, weatherModule, linearStalledModule, systemModule]

/-- A trivial module behaviour, for concrete witnesses. -/
def trivialBehavior : ModuleBehavior :=
  ⟨fun _ => Except.ok (), fun _ => Except.ok ""⟩

/-- Witness for C10 at a concrete input: the system module, enabled under
the default configuration, is not named `greeting`. -/
theorem greeting_module_never_enabled_witness :
    (systemModule trivialBehavior).name ≠ "greeting" :=
  greeting_module_never_enabled.2.2 trivialBehavior trivialBehavior trivialBehavior
    trivialBehavior defaultWelcomeConfig (systemModule trivialBehavior)
    (by exact List.Mem.head _)

-- ## The process entry point (src/index.ts)

/-- A lifecycle call the orchestrator makes on a module. -/
inductive LifeEvent where
  | setupEv (name : String) : LifeEvent
  | displayEv (name : String) : LifeEvent

/-- Is this event a `display` call on the module with the given name? -/
def isDisplayEventFor (name : String) : LifeEvent → Bool
  | LifeEvent.displayEv n => n == name
  | LifeEvent.setupEv _ => false

/-- Is this event a `setup` call on the module with the given name? -/
def isSetupEventFor (name : String) : LifeEvent → Bool
  | LifeEvent.setupEv n => n == name
  | LifeEvent.displayEv _ => false

/-- The lifecycle calls one run of `init` (src/index.ts) makes: `init`
resolves the enabled modules, runs `setupModules` (one `setup` call per
enabled module, in order) and then `displayWelcome` (one `display` call
per enabled module, in order). -/
def initTrace (r : ModuleRegistry) (config : WelcomeConfig) : List LifeEvent :=
  (r.getEnabledModules config).map (fun m => LifeEvent.setupEv m.name)
    ++ (r.getEnabledModules config).map (fun m => LifeEvent.displayEv m.name)

/-- The lifecycle calls made by loading the entry module src/index.ts in
one process run: the module-level code runs `init()` under the
`require.main === module` guard — taken when the file is executed
directly (`isMain`) — and then runs `init()` a second time
unconditionally. -/
def runEntryModule (r : ModuleRegistry) (config : WelcomeConfig) (isMain : Bool) :
    List LifeEvent :=
  (if isMain then initTrace r config else []) ++ initTrace r config

-- ## Claim C9: setup once before display, display once per invocation

/-- C9 evaluated at the failing input: when the entry module is executed
directly (`require.main === module`), the guarded `init()` call and the
unconditional `init()` call both run, so under the default configuration
the `system` module's `setup` and `display` are each invoked twice in the
process — not once, as the claim states.  (Each single `init` run does
call every enabled module's `setup` exactly once before any `display`.) -/
theorem entry_module_runs_lifecycle_twice (bg bw bl bs : ModuleBehavior) :
    (runEntryModule (moduleRegistry bg bw bl bs) defaultWelcomeConfig true).countP
        (isDisplayEventFor "system") = 2
    ∧ (runEntryModule (moduleRegistry bg bw bl bs) defaultWelcomeConfig true).countP
        (isSetupEventFor "system") = 2
    ∧ (initTrace (moduleRegistry bg bw bl bs) defaultWelcomeConfig).countP
        (isDisplayEventFor "system") = 1 := by
  exact ⟨rfl, rfl, rfl⟩

-- ## Configuration loading (src/config/index.ts, src/types/config.ts)

/-- An optional string field of the default configuration: a field set
from an environment variable is present when the variable is set and
`undefined` — hence absent in the object model — otherwise. -/
def optField (key : String) : Option String → List (String × JValue)
  | some s => [(key, JValue.str s)]
  | none => []

/-- The `defaultConfig` object of src/types/config.ts, at the JSON level.
`envGithubToken` and `envLinearApiKey` model `process.env
.GITHUB_PERSONAL_TOKEN` and `process.env.LINEAR_API_KEY`; `home` models
`process.env.HOME`.  `username: undefined` is an absent key; enum and
float literals are integral (`LogLevel.INFO = 1`, `maxExecutionTime:
1.0`). -/
def defaultConfigObj (envGithubToken envLinearApiKey : Option String) (home : String) :
    List (String × JValue) :=
  [ ("user", JValue.obj [("userName", JValue.str "Jens")]),
    ("weather", JValue.obj
      [ ("city", JValue.str "New York"), ("country", JValue.str "US"),
        ("zip", JValue.str "10001"), ("units", JValue.str "imperial"),
        ("apiKey", JValue.str ""), ("showForecast", JValue.bool false),
        ("showHumidity", JValue.bool true), ("showWind", JValue.bool false)]),
    ("github", JValue.obj (optField "personalToken" envGithubToken ++
      [ ("showAssignedPRs", JValue.bool true), ("showCreatedPRs", JValue.bool false),
        ("showMentions", JValue.bool false), ("maxPRs", JValue.num 5)])),
    ("linear", JValue.obj (optField "apiKey" envLinearApiKey ++
      [ ("teamNames", JValue.arr
          [JValue.str "Application", JValue.str "Security", JValue.str "Dev Ops"]),
        ("daysStalled", JValue.num 3), ("baseUrl", JValue.str "https://linear.app/")])),
    ("system", JValue.obj
      [ ("showLoad", JValue.bool true), ("showMemory", JValue.bool true),
        ("showDisk", JValue.bool false), ("showBattery", JValue.bool true),
        ("showUptime", JValue.bool true)]),
    ("cache", JValue.obj
      [ ("weatherDuration", JValue.num 3600), ("githubDuration", JValue.num 300),
        ("quoteDuration", JValue.num 86400)]),
    ("performance", JValue.obj
      [ ("maxExecutionTime", JValue.num 1), ("parallelExecution", JValue.bool false),
        ("showMetrics", JValue.bool false)]),
    ("display", JValue.obj
      [ ("useEmojis", JValue.bool true), ("colorTheme", JValue.str "default"),
        ("logLevel", JValue.num 1)]),
    ("enabledModules", JValue.arr (defaultEnabledModules.map JValue.str)),
    ("dataDir", JValue.str (home ++ "/.config/welcome/data")) ]

/-- The own enumerable properties a JavaScript spread `{...v}` copies from
a parsed JSON value: an object spreads its fields, an array and a string
spread their elements under their index keys, and the primitives spread
nothing. -/
def spreadProps : JValue → List (String × JValue)
  | JValue.obj fields => fields
  | JValue.arr elems => elems.enum.map (fun p => (toString p.1, p.2))
  | JValue.str s => s.toList.enum.map (fun p => (toString p.1, JValue.str (String.singleton p.2)))
  | JValue.null => []
  | JValue.bool _ => []
  | JValue.num _ => []

/-- The shallow merge `{ ...defaultConfig, ...userConfig }`: each key of
the base keeps its position and is overridden wholesale when the user
object has it; keys only the user object has are appended in its order. -/
def spreadMerge (base user : List (String × JValue)) : List (String × JValue) :=
  base.map (fun kv =>
    match lookupAssoc user kv.1 with
    | some w => (kv.1, w)
    | none => kv)
  ++ user.filter (fun kv => (lookupAssoc base kv.1).isNone)

/-- The state of the persisted configuration file
`~/.config/welcome/config.json` when `loadConfig` runs. -/
inductive PersistedFile where
  | dirError : PersistedFile
  | absent : PersistedFile
  | unparseable : PersistedFile
  | parsed (v : JValue) : PersistedFile

/-- Embedding of `loadConfig` (src/config/index.ts).  When the config
directory cannot be created, or the file is absent or `JSON.parse` throws,
the defaults are returned (after writing them back, which is not
observable here).  Otherwise the parsed value is shallow-merged over the
defaults; the subsequent `logger.setLevel(config.display.logLevel)` throws
a `TypeError` when `config.display` is `null` or missing, which the inner
`catch` turns into the defaults as well. -/
def loadConfig (envGithubToken envLinearApiKey : Option String) (home : String)
    (persisted : PersistedFile) : List (String × JValue) :=
  match persisted with
  | PersistedFile.dirError => defaultConfigObj envGithubToken envLinearApiKey home
  | PersistedFile.absent => defaultConfigObj envGithubToken envLinearApiKey home
  | PersistedFile.unparseable => defaultConfigObj envGithubToken envLinearApiKey home
  | PersistedFile.parsed user =>
      let config := spreadMerge (defaultConfigObj envGithubToken envLinearApiKey home)
        (spreadProps user)
      match lookupAssoc config "display" with
      | some JValue.null => defaultConfigObj envGithubToken envLinearApiKey home
      | none => defaultConfigObj envGithubToken envLinearApiKey home
      | some _ => config

/-- Does the loaded configuration provide a value at every field path the
default configuration provides one?  A top-level default key must be
present; when its default value is a section object, every field of that
section must also be present in the loaded section. -/
def fieldFilled (loaded : List (String × JValue)) (key : String) : JValue → Bool
  | JValue.obj defFields =>
      match lookupAssoc loaded key with
      | some (JValue.obj loadedFields) =>
          defFields.all (fun f => (lookupAssoc loadedFields f.1).isSome)
      | some _ => false
      | none => false
  | _ => (lookupAssoc loaded key).isSome

/-- Every field with a default value has a value in the loaded
configuration. -/
def hasAllDefaultFields (envGithubToken envLinearApiKey : Option String) (home : String)
    (loaded : List (String × JValue)) : Bool :=
  (defaultConfigObj envGithubToken envLinearApiKey home).all
    (fun kv => fieldFilled loaded kv.1 kv.2)

/-- Lookup distributes over list append, preferring the left part. -/
theorem lookupAssoc_append {α : Type} (l1 l2 : List (String × α)) (key : String) :
    lookupAssoc (l1 ++ l2) key =
      (match lookupAssoc l1 key with
       | some v => some v
       | none => lookupAssoc l2 key) := by
  induction l1 with
  | nil => simp [lookupAssoc]
  | cons kv rest ih =>
      obtain ⟨k, v⟩ := kv
      by_cases hk : k == key <;> simp [lookupAssoc, hk, ih]

/-- The overriding map of the spread-merge preserves which keys are
present. -/
theorem lookupAssoc_mergeMap_isSome (base user : List (String × JValue)) (key : String)
    (h : (lookupAssoc base key).isSome = true) :
    (lookupAssoc (base.map (fun kv =>
      match lookupAssoc user kv.1 with
      | some w => (kv.1, w)
      | none => kv)) key).isSome = true := by
  induction base with
  | nil => simp [lookupAssoc] at h
  | cons kv bs ih =>
      obtain ⟨k, v⟩ := kv
      by_cases hk : k == key
      · cases hu : lookupAssoc user k with
        | some w => simp [lookupAssoc, hk, hu]
        | none => simp [lookupAssoc, hk, hu]
      · have h' : (lookupAssoc bs key).isSome = true := by
          simpa [lookupAssoc, hk] using h
        cases hu : lookupAssoc user k with
        | some w => simpa [lookupAssoc, hk, hu] using ih h'
        | none => simpa [lookupAssoc, hk, hu] using ih h'

/-- Keys of the base survive a shallow spread-merge. -/
theorem lookupAssoc_spreadMerge_isSome (base user : List (String × JValue)) (key : String)
    (h : (lookupAssoc base key).isSome = true) :
    (lookupAssoc (spreadMerge base user) key).isSome = true := by
  have hmap := lookupAssoc_mergeMap_isSome base user key h
  rw [spreadMerge, lookupAssoc_append]
  cases hm : lookupAssoc (base.map (fun kv =>
      match lookupAssoc user kv.1 with
      | some w => (kv.1, w)
      | none => kv)) key with
  | none => rw [hm] at hmap; simp at hmap
  | some w => simp [hm]

-- ## Claim C8: all fields fall back to defaults

/-- Counterexample to C8 as stated: the persisted file `{"github": {}}` is
a section with missing nested fields.  The shallow merge
`{ ...defaultConfig, ...userConfig }` replaces the whole `github` section
with the empty object, so the loaded configuration is missing
`github.maxPRs` (and the other github fields) instead of falling back to
their defaults. -/
theorem loadConfig_shallow_merge_counterexample :
    hasAllDefaultFields none none "/home/jens"
      (loadConfig none none "/home/jens"
        (PersistedFile.parsed (JValue.obj [("github", JValue.obj [])]))) = false := by
  rfl

/-- C8 (amended): `loadConfig` always returns without failing, an absent
or unparseable persisted file (or an unwritable configuration directory)
yields the full default configuration, and every top-level section of the
default configuration keeps a value under any persisted input — but the
merge is shallow: a section present in the persisted file replaces the
default section wholesale, so a field missing inside a persisted section
is not filled in from the defaults. -/
theorem loadConfig_top_level_defaults (envGithubToken envLinearApiKey : Option String)
    (home : String) :
    (loadConfig envGithubToken envLinearApiKey home PersistedFile.absent
        = defaultConfigObj envGithubToken envLinearApiKey home)
    ∧ (loadConfig envGithubToken envLinearApiKey home PersistedFile.unparseable
        = defaultConfigObj envGithubToken envLinearApiKey home)
    ∧ (loadConfig envGithubToken envLinearApiKey home PersistedFile.dirError
        = defaultConfigObj envGithubToken envLinearApiKey home)
    ∧ (∀ (persisted : PersistedFile) (key : String),
        (lookupAssoc (defaultConfigObj envGithubToken envLinearApiKey home) key).isSome = true →
        (lookupAssoc (loadConfig envGithubToken envLinearApiKey home persisted) key).isSome
          = true) := by
  refine ⟨rfl, rfl, rfl, ?_⟩
  intro persisted key h
  cases persisted with
  | dirError => exact h
  | absent => exact h
  | unparseable => exact h
  | parsed user =>
      cases hd : lookupAssoc (spreadMerge (defaultConfigObj envGithubToken envLinearApiKey home)
          (spreadProps user)) "display" with
      | none =>
          simp only [loadConfig, hd]
          exact h
      | some w =>
          cases w with
          | null => simp only [loadConfig, hd]; exact h
          | bool b =>
              simp only [loadConfig, hd]
              exact lookupAssoc_spreadMerge_isSome _ _ key h
          | num n =>
              simp only [loadConfig, hd]
              exact lookupAssoc_spreadMerge_isSome _ _ key h
          | str s =>
              simp only [loadConfig, hd]
              exact lookupAssoc_spreadMerge_isSome _ _ key h
          | arr elems =>
              simp only [loadConfig, hd]
              exact lookupAssoc_spreadMerge_isSome _ _ key h
          | obj fields =>
              simp only [loadConfig, hd]
              exact lookupAssoc_spreadMerge_isSome _ _ key h

/-- Witness for C8 (amended) at a concrete input: the `user` section stays
present after merging an empty persisted object. -/
theorem loadConfig_top_level_defaults_witness :
    (lookupAssoc (loadConfig none none "/home/jens"
        (PersistedFile.parsed (JValue.obj []))) "user").isSome = true :=
  (loadConfig_top_level_defaults none none "/home/jens").2.2.2
    (PersistedFile.parsed (JValue.obj [])) "user" rfl
